import Mathlib

/-!
Verification of the `kt` binary-protocol client (`kt/_binary.pyx`) against its
natural-language specification.  Each Python/Cython function relevant to the
claims is shallowly embedded as an executable Lean definition; machine integers
are modelled as `Nat`/`Int` with explicit bounds, byte strings as `List Nat`
with each element a byte value, and fallible code returns `Option`/`Except`.
-/

namespace KTBinary

/-! ### Varint codec (`_writevarnum` / `_readvarnum`)

`_writevarnum` writes a big-endian base-128 self-delimiting integer into a
buffer and returns the number of bytes written (0 when `num ≥ 2^56`, in which
case nothing is written).  We embed it as the list of bytes written; the
returned count is the length of that list. -/

def writevarnum (num : Nat) : List Nat :=
  if num < 1 <<< 7 then
    [num]
  else if num < 1 <<< 14 then
    [(num >>> 7) ||| 0x80,
     num &&& 0x7f]
  else if num < 1 <<< 21 then
    [(num >>> 14) ||| 0x80,
     ((num >>> 7) &&& 0x7f) ||| 0x80,
     num &&& 0x7f]
  else if num < 1 <<< 28 then
    [(num >>> 21) ||| 0x80,
     ((num >>> 14) &&& 0x7f) ||| 0x80,
     ((num >>> 7) &&& 0x7f) ||| 0x80,
     num &&& 0x7f]
  else if num < 1 <<< 35 then
    [(num >>> 28) ||| 0x80,
     ((num >>> 21) &&& 0x7f) ||| 0x80,
     ((num >>> 14) &&& 0x7f) ||| 0x80,
     ((num >>> 7) &&& 0x7f) ||| 0x80,
     num &&& 0x7f]
  else if num < 1 <<< 42 then
    [(num >>> 35) ||| 0x80,
     ((num >>> 28) &&& 0x7f) ||| 0x80,
     ((num >>> 21) &&& 0x7f) ||| 0x80,
     ((num >>> 14) &&& 0x7f) ||| 0x80,
     ((num >>> 7) &&& 0x7f) ||| 0x80,
     num &&& 0x7f]
  else if num < 1 <<< 49 then
    [(num >>> 42) ||| 0x80,
     ((num >>> 35) &&& 0x7f) ||| 0x80,
     ((num >>> 28) &&& 0x7f) ||| 0x80,
     ((num >>> 21) &&& 0x7f) ||| 0x80,
     ((num >>> 14) &&& 0x7f) ||| 0x80,
     ((num >>> 7) &&& 0x7f) ||| 0x80,
     num &&& 0x7f]
  else if num < 1 <<< 56 then
    [(num >>> 49) ||| 0x80,
     ((num >>> 42) &&& 0x7f) ||| 0x80,
     ((num >>> 35) &&& 0x7f) ||| 0x80,
     ((num >>> 28) &&& 0x7f) ||| 0x80,
     ((num >>> 21) &&& 0x7f) ||| 0x80,
     ((num >>> 14) &&& 0x7f) ||| 0x80,
     ((num >>> 7) &&& 0x7f) ||| 0x80,
     num &&& 0x7f]
  else
    []

/-- `_readvarnum`'s loop: shift-accumulate 7 bits per byte into the
`uint64_t` accumulator `num` (C unsigned arithmetic, so every step wraps
modulo `2^64`), stop after the first byte with a clear high bit; when the
buffer runs out, the accumulated value and the full size are returned (the
`rp >= ep` test inside the loop body is unreachable).  `consumed` counts the
bytes read so far. -/
def readvarnumAux : List Nat → Nat → Nat → Nat × Nat
  | [], num, consumed => (num, consumed)
  | c :: rest, num, consumed =>
    let num' := ((num <<< 7) + (c &&& 0x7f)) % 2 ^ 64
    if c < 0x80 then (num', consumed + 1)
    else readvarnumAux rest num' (consumed + 1)

/-- `_readvarnum(buf, size, &np)`: returns `(value stored in *np, step)`. -/
def readvarnum (buf : List Nat) : Nat × Nat :=
  readvarnumAux buf 0 0

example : writevarnum 5 = [5] := by decide
example : writevarnum 300 = [0x82, 0x2c] := by decide
example : readvarnum [0x82, 0x2c] = (300, 2) := by decide
example : readvarnum [0x80] = (0, 1) := by decide

/-! ### Big-endian integer packing (`struct` format codes `>H`, `>I`, `>q`) -/

/-- `struct.pack('>H', x)`: two big-endian bytes. -/
def u16be (x : Nat) : List Nat :=
  [x / 2 ^ 8 % 256, x % 256]

/-- `struct.pack('>I', x)`: four big-endian bytes. -/
def u32be (x : Nat) : List Nat :=
  [x / 2 ^ 24 % 256, x / 2 ^ 16 % 256, x / 2 ^ 8 % 256, x % 256]

/-- `struct.pack('>Q', x)`: eight big-endian bytes. -/
def u64be (x : Nat) : List Nat :=
  [x / 2 ^ 56 % 256, x / 2 ^ 48 % 256, x / 2 ^ 40 % 256, x / 2 ^ 32 % 256,
   x / 2 ^ 24 % 256, x / 2 ^ 16 % 256, x / 2 ^ 8 % 256, x % 256]

/-- `struct.pack('>q', x)`: signed 64-bit big-endian (two's complement). -/
def i64be (x : Int) : List Nat :=
  u64be (x % (2 : Int) ^ 64).toNat

/-- `DEF EXPIRE = 0x7fffffffffffffff`: the "no expiration" sentinel. -/
def EXPIRE : Int := 0x7fffffffffffffff

/-- `DEF KT_SET_BULK = b'\xb8'` as a byte value. -/
def KT_SET_BULK : Nat := 0xb8

/-- `DEF KT_ERROR = b'\xbf'` as a byte value. -/
def KT_ERROR : Nat := 0xbf

/-- `DEF KT_NOREPLY = 0x01`. -/
def KT_NOREPLY : Nat := 0x01

/-- Python `v or d` where `v` is an integer-or-`None` argument: `None` and `0`
are falsy and yield `d`. -/
def pyOrInt (v : Option Int) (d : Int) : Int :=
  match v with
  | none => d
  | some t => if t = 0 then d else t

/-! ### KT `set_bulk` request assembly (C9)

`RequestBuffer.write_key_value_list_with_db_expire(data, db, xt, ...)` writes
`u32 count` then, per record, `struct_dbkvxt.pack(db, klen, vlen, xt)` (format
`>HIIq`) followed by the key and value bytes.  Keys and values are modelled as
byte strings (for byte inputs `_encode` is the identity, and the value codec of
the claim's record path is the identity). -/

def struct_dbkvxt (db klen vlen : Nat) (xt : Int) : List Nat :=
  u16be db ++ u32be klen ++ u32be vlen ++ i64be xt

def write_key_value_list_with_db_expire (data : List (List Nat × List Nat))
    (db : Nat) (xt : Int) : List Nat :=
  u32be data.length ++
    (data.map fun kv =>
      struct_dbkvxt db kv.1.length kv.2.length xt ++ kv.1 ++ kv.2).flatten

/-- `KTBinaryProtocol._set_bulk` (dict path): magic `KT_SET_BULK`, `u32 flags`,
then `write_key_value_list_with_db_expire(data, db, expire_time or EXPIRE)`. -/
def setBulkRequest (data : List (List Nat × List Nat)) (db : Nat)
    (expire_time : Option Int) (no_reply : Bool) : List Nat :=
  KT_SET_BULK :: (u32be (if no_reply then KT_NOREPLY else 0) ++
    write_key_value_list_with_db_expire data db (pyOrInt expire_time EXPIRE))

/-! ### KT response status byte (`KTResponseHandler.check_error`, C3)

The exception classes the source imports and raises. -/

inductive PyExc where
  | protocolError
  | serverError
  | serverConnectionError
  | scriptError
  | valueError
deriving DecidableEq, Repr

/-- The Python class name of each exception. -/
def excName : PyExc → String
  | .protocolError => "ProtocolError"
  | .serverError => "ServerError"
  | .serverConnectionError => "ServerConnectionError"
  | .scriptError => "ScriptError"
  | .valueError => "ValueError"

/-- `KTResponseHandler.check_error(magic)` over the response byte stream:
`recv(1)`, compare against the request magic, else `KT_ERROR`, else raise.
On success the remaining stream is available for further parsing; a raise
consumes exactly the one status byte.  `recv(1)` on an empty stream is a
zero-byte read, i.e. `ServerConnectionError` from `_read_from_socket`. -/
def ktCheckError (magic : Nat) (resp : List Nat) :
    Except (PyExc × String) (List Nat) :=
  match resp with
  | [] => .error (.serverConnectionError, "server went away")
  | b :: rest =>
    if b = magic then .ok rest
    else if b = KT_ERROR then
      .error (.protocolError, "Internal server error processing request.")
    else
      .error (.serverError, "Unexpected server response")

/-! ### TT request/response (C5, C10) -/

/-- `TTBinaryProtocol.misc`: `opts` as computed by the source
(`opts = 1 if update_log else 0`). -/
def miscOpts (update_log : Bool) : Nat :=
  if update_log then 1 else 0

/-- `TTBinaryProtocol.misc` request bytes: `struct_2siii.pack(b'\xc8\x90',
len(name), opts, len(args))`, the name, then each argument length-prefixed. -/
def miscRequest (proc : List Nat) (args : List (List Nat))
    (update_log : Bool) : List Nat :=
  ([0xc8, 0x90] ++ u32be proc.length ++ u32be (miscOpts update_log) ++
    u32be args.length) ++ proc ++
    (args.map fun a => u32be a.length ++ a).flatten

/-- Exact-length receive from the modelled response stream.  A request for
more bytes than the response holds would block on the real socket; that case
is marked `"blocked"` and never arises on well-formed responses. -/
def recvN (n : Nat) (s : List Nat) : Except String (List Nat × List Nat) :=
  if n ≤ s.length then .ok (s.take n, s.drop n) else .error "blocked"

/-- C cast of the accumulated 32-bit value to `int32_t`. -/
def toInt32 (c : Nat) : Int :=
  if c % 2 ^ 32 < 2 ^ 31 then ((c % 2 ^ 32 : Nat) : Int)
  else ((c % 2 ^ 32 : Nat) : Int) - 2 ^ 32

/-- `BaseResponseHandler.read_int`: `recv(4)` then
`(data[0]<<24) + (data[1]<<16) + (data[2]<<8) + data[3]` as `int32_t`. -/
def ttReadInt (s : List Nat) : Except String (Int × List Nat) :=
  if 4 ≤ s.length then
    .ok (toInt32 ((s.getD 0 0) <<< 24 + (s.getD 1 0) <<< 16 +
      (s.getD 2 0) <<< 8 + s.getD 3 0), s.drop 4)
  else .error "blocked"

/-- `BaseResponseHandler.read_bytes`: `n = read_int()`, then `recv(n)` when
`n > 0`, else the empty byte string. -/
def ttReadBytes (s : List Nat) : Except String (List Nat × List Nat) := do
  let (n, s1) ← ttReadInt s
  if 0 < n then recvN n.toNat s1
  else .ok ([], s1)

/-- `TTResponseHandler.check_error`: `recv(1)`; `\x00` yields 0, `\x01`
yields 1, anything else raises `ServerError`. -/
def ttCheckError (s : List Nat) : Except String (Nat × List Nat) :=
  match s with
  | [] => .error "blocked"
  | b :: rest =>
    if b = 0x00 then .ok (0, rest)
    else if b = 0x01 then .ok (1, rest)
    else .error "ServerError: unexpected server response"

/-- `TTBinaryProtocol.get` response handling (identity value decode): when
`check_error()` returns 0 read the length-prefixed value, otherwise fall
through and return `None`. -/
def ttGet (s : List Nat) : Except String (Option (List Nat) × List Nat) := do
  let (st, s1) ← ttCheckError s
  if st = 0 then do
    let (v, s2) ← ttReadBytes s1
    .ok (some v, s2)
  else
    .ok (none, s1)

/-! ### Framed socket (`_Socket`, C2)

Only the fields the claims touch are carried: the `is_closed` flag and the
read/write cursors.  The behaviour of the underlying OS socket during one
`_read_from_socket` call is a list of events: each `recv_into` either returns
a chunk of `l` bytes, raises `socket.timeout`, or raises another
`socket.error`. -/

structure SockState where
  isClosed : Bool
  bytesRead : Nat
  bytesWritten : Nat
deriving DecidableEq, Repr

/-- `_Socket.close`: purge the buffer (reset both cursors), close, and set
`is_closed`; a no-op when already closed. -/
def sockClose (st : SockState) : SockState :=
  if st.isClosed then st
  else { isClosed := true, bytesRead := 0, bytesWritten := 0 }

inductive RecvEv where
  | chunk (l : Nat)
  | timeout
  | sockerr
deriving DecidableEq, Repr

/-- A failed socket operation: the raised message plus the socket state the
exception propagates from. -/
abbrev SockFail := String × SockState

/-- The `while True` loop of `_Socket._read_from_socket(length)` with its
surrounding `try`/`except`: a zero-byte `recv_into` closes the socket and
raises `ServerConnectionError('server went away')`; `socket.timeout` and
`socket.error` raise `ServerConnectionError` messages without touching the
socket state.  Exhausting the event list while more bytes are wanted means
the real call would still be blocked in `recv_into`. -/
def readFromSocketLoop (len : Int) :
    List RecvEv → SockState → Int → Except SockFail SockState
  | [], st, _ => .error ("blocked", st)
  | ev :: evs, st, marker =>
    match ev with
    | .chunk l =>
      if l = 0 then .error ("server went away", sockClose st)
      else
        let st' := { st with bytesWritten := st.bytesWritten + l }
        let marker' := marker + (l : Int)
        if 0 < len ∧ marker' < len then readFromSocketLoop len evs st' marker'
        else .ok st'
    | .timeout => .error ("timed out reading from socket", st)
    | .sockerr => .error ("error while reading from socket", st)

/-- `_Socket._read_from_socket(length)`. -/
def readFromSocket (len : Int) (evs : List RecvEv) (st : SockState) :
    Except SockFail SockState :=
  readFromSocketLoop len evs st 0

inductive SendEv where
  | sent
  | ioerr
deriving DecidableEq, Repr

/-- `_Socket.send`: `sendall` either delivers everything or raises `IOError`,
in which case the socket is closed before `ServerConnectionError` is
re-raised. -/
def sockSend (ev : SendEv) (st : SockState) : Except SockFail SockState :=
  match ev with
  | .sent => .ok st
  | .ioerr => .error ("server went away", sockClose st)

/-! ### Socket pool (`SocketPool`, C4)

The free heap is the list of `(release timestamp, socket id)` pairs in heap
order (ascending timestamps); `closedIds` records the sockets on which
`_Socket.close()` has been invoked. -/

structure PoolState where
  free : List (Int × Nat)
  inUse : List (Nat × Nat)
  closedIds : List Nat
deriving DecidableEq, Repr

/-- The `while self.free` loop of `SocketPool.close_idle`: pop the stalest
entry; if its timestamp is recent (`ts > now - cutoff`) push it back and stop,
otherwise count it and continue.  (Pushing the just-popped minimum back onto
the remaining heap restores the original heap.) -/
def closeIdleLoop (now cutoff : Int) :
    List (Int × Nat) → Nat → Nat × List (Int × Nat)
  | [], n => (n, [])
  | (ts, s) :: rest, n =>
    if now - cutoff < ts then (n, (ts, s) :: rest)
    else closeIdleLoop now cutoff rest (n + 1)

/-- `SocketPool.close_idle(cutoff)` at time `now`: returns the count and the
updated pool.  Note the loop body never invokes `sock.close()`. -/
def closeIdle (now cutoff : Int) (st : PoolState) : Nat × PoolState :=
  let r := closeIdleLoop now cutoff st.free 0
  (r.1, { st with free := r.2 })

/-- `SocketPool.close_all`: pop every free socket (from the end, via
`list.pop()`) and `close()` it, then `close()` every in-use socket and clear
`in_use`; returns the count. -/
def closeAll (st : PoolState) : Nat × PoolState :=
  (st.free.length + st.inUse.length,
   { free := [], inUse := [],
     closedIds := st.closedIds ++ (st.free.reverse.map fun p => p.2) ++
       (st.inUse.map fun p => p.2) })

/-! ### Map blob codec (`_serialize_dict` / `_deserialize_dict`, C8)

Python values that appear as keys/values of the deserialized dict: byte
strings, or text strings (represented by their list of Unicode code points,
the result of `bytes.decode('utf-8')`). -/

inductive PyObj where
  | pybytes : List Nat → PyObj
  | pystr : List Nat → PyObj
deriving DecidableEq, Repr

/-- Is `b` a UTF-8 continuation byte? -/
def utf8Cont (b : Nat) : Bool :=
  0x80 ≤ b && b < 0xc0

/-- CPython's strict UTF-8 decoder on a byte string: code points out, `none`
on any malformed, overlong, surrogate or out-of-range sequence
(`UnicodeDecodeError`). -/
def utf8Decode : List Nat → Option (List Nat)
  | [] => some []
  | b :: rest =>
    if b < 0x80 then (utf8Decode rest).map (b :: ·)
    else if b < 0xc2 then none
    else if b < 0xe0 then
      match rest with
      | b1 :: rest2 =>
        if utf8Cont b1 then
          (utf8Decode rest2).map (((b - 0xc0) * 0x40 + (b1 - 0x80)) :: ·)
        else none
      | [] => none
    else if b < 0xf0 then
      match rest with
      | b1 :: b2 :: rest2 =>
        let cp := (b - 0xe0) * 0x1000 + (b1 - 0x80) * 0x40 + (b2 - 0x80)
        if utf8Cont b1 && utf8Cont b2 &&
            decide (0x800 ≤ cp) && (decide (cp < 0xd800) || decide (0xdfff < cp)) then
          (utf8Decode rest2).map (cp :: ·)
        else none
      | _ => none
    else if b < 0xf5 then
      match rest with
      | b1 :: b2 :: b3 :: rest2 =>
        let cp := (b - 0xf0) * 0x40000 + (b1 - 0x80) * 0x1000 +
          (b2 - 0x80) * 0x40 + (b3 - 0x80)
        if utf8Cont b1 && utf8Cont b2 && utf8Cont b3 &&
            decide (0x10000 ≤ cp) && decide (cp ≤ 0x10ffff) then
          (utf8Decode rest2).map (cp :: ·)
        else none
      | _ => none
    else none

/-- `_decode(bytes)`: `obj.decode('utf-8')`, a text string on success. -/
def pyDecode (bs : List Nat) : Option PyObj :=
  (utf8Decode bs).map .pystr

/-- Python dict insertion (`accum[k] = v`) on an association list that keeps
first-insertion order: replace in place if the key exists, else append. -/
def dictInsert (d : List (PyObj × PyObj)) (k v : PyObj) :
    List (PyObj × PyObj) :=
  match d with
  | [] => [(k, v)]
  | (k0, v0) :: rest =>
    if k0 = k then (k0, v) :: rest else (k0, v0) :: dictInsert rest k v

/-- `_serialize_dict(d)`: per entry, varint key length, varint value length,
key bytes, value bytes (keys/values already byte strings, `_encode` is the
identity on them). -/
def serializeDict (d : List (List Nat × List Nat)) : List Nat :=
  (d.map fun kv =>
    writevarnum kv.1.length ++ writevarnum kv.2.length ++ kv.1 ++ kv.2).flatten

/-- The `while buflen > 0` loop of `_deserialize_dict(data, deserialize)`.
Each pass reads two varints, checks the remaining length against
`step + num` (raising the corrupt `ValueError` otherwise), slices the key and
value bytes, and stores `accum[_decode(bkey)] = _decode(bval) / bval`.  The
fuel starts at the buffer length; every pass consumes at least one byte, so it
never runs out. -/
def deserializeDictLoop (des : Bool) :
    Nat → List Nat → List (PyObj × PyObj) → Except String (List (PyObj × PyObj))
  | _, [], accum => .ok accum
  | 0, _ :: _, _ => .error "fuel"
  | fuel + 1, b :: bs, accum =>
    let buf := b :: bs
    let r := readvarnum buf
    let knum := r.1
    let kstep := r.2
    if buf.length < kstep + knum then .error "corrupt key, refusing to process"
    else
      let buf1 := buf.drop kstep
      let r2 := readvarnum buf1
      let vnum := r2.1
      let vstep := r2.2
      if buf1.length < vstep + vnum then
        .error "corrupt value, refusing to process"
      else
        let buf2 := buf1.drop vstep
        let bkey := buf2.take knum
        let buf3 := buf2.drop knum
        let bval := buf3.take vnum
        let buf4 := buf3.drop vnum
        match pyDecode bkey with
        | none => .error "UnicodeDecodeError"
        | some k =>
          if des then
            match pyDecode bval with
            | none => .error "UnicodeDecodeError"
            | some v => deserializeDictLoop des fuel buf4 (dictInsert accum k v)
          else
            deserializeDictLoop des fuel buf4 (dictInsert accum k (.pybytes bval))

/-- `_deserialize_dict(data, deserialize)`. -/
def deserializeDict (data : List Nat) (des : Bool) :
    Except String (List (PyObj × PyObj)) :=
  deserializeDictLoop des data.length data []

example :
    deserializeDict (serializeDict [([0x6b], [0x76])]) false =
      .ok [(.pystr [0x6b], .pybytes [0x76])] := rfl

instance {ε α : Type} [DecidableEq ε] [DecidableEq α] :
    DecidableEq (Except ε α) := fun x y =>
  match x, y with
  | .error a, .error b =>
    if h : a = b then isTrue (h ▸ rfl)
    else isFalse fun hh => h (by injection hh)
  | .ok a, .ok b =>
    if h : a = b then isTrue (h ▸ rfl)
    else isFalse fun hh => h (by injection hh)
  | .error _, .ok _ => isFalse fun hh => Except.noConfusion hh
  | .ok _, .error _ => isFalse fun hh => Except.noConfusion hh

/-! ## Theorems -/

/-- C4: evaluating `SocketPool.close_idle` at its failing input.  A pool whose
free heap holds one socket (id 7) released at time 0, reaped at `now = 10`
with `cutoff = 0`: `close_idle` reports `1` socket "closed", yet no socket's
`close()` was invoked (`closedIds` stays empty) — unlike `close_all`, whose
loop does call `sock.close()` on the same pool. -/
theorem C4_close_idle_never_closes :
    closeIdle 10 0 ⟨[(0, 7)], [], []⟩ = (1, ⟨[], [], []⟩) ∧
    (closeIdle 10 0 ⟨[(0, 7)], [], []⟩).2.closedIds = [] ∧
    closeAll ⟨[(0, 7)], [], []⟩ = (1, ⟨[], [], [7]⟩) := by
  decide

/-- C5: evaluating `TTBinaryProtocol.misc` at its failing input.  For
`misc('put', ..., update_log=True)` the u32 `opts` field written after the
command-name length (bytes 6–10 of the request) is `1` — the
do-not-update-replication-log bit is set — and for `update_log=False` it is
`0`, the opposite of the documented meaning of `update_log`. -/
theorem C5_misc_opts_inverted :
    miscOpts true = 1 ∧ miscOpts false = 0 ∧
    ((miscRequest [0x70, 0x75, 0x74] [] true).drop 6).take 4 = [0, 0, 0, 1] ∧
    ((miscRequest [0x70, 0x75, 0x74] [] false).drop 6).take 4 = [0, 0, 0, 0] := by
  decide

/-- C8: evaluating the map-blob round trip at its failing input.  Serializing
the one-entry byte map `{b'k': b'v'}` and deserializing it (with value
decoding off) yields a dict keyed by the *text* string `'k'`, because
`_deserialize_dict` stores `accum[_decode(bkey)]` in both branches; the
original byte-keyed map is not recovered. -/
theorem C8_deserialize_decodes_keys :
    serializeDict [([0x6b], [0x76])] = [1, 1, 0x6b, 0x76] ∧
    deserializeDict (serializeDict [([0x6b], [0x76])]) false =
      .ok [(.pystr [0x6b], .pybytes [0x76])] ∧
    deserializeDict (serializeDict [([0x6b], [0x76])]) false ≠
      .ok [(.pybytes [0x6b], .pybytes [0x76])] := by
  decide

/-- C3 (counterexample): on the error magic `0xBF` the code raises the class
named `ProtocolError` (not a `ServerInternalError`, which the source never
defines or raises), and on any other unexpected first byte (here `0x00`) it
raises the class named `ServerError` (not `ProtocolError`). -/
theorem C3_exception_classes_swapped :
    ktCheckError 0xb8 (0xbf :: [1, 2, 3]) =
      .error (.protocolError, "Internal server error processing request.") ∧
    excName .protocolError ≠ "ServerInternalError" ∧
    ktCheckError 0xb8 (0x00 :: [1, 2, 3]) =
      .error (.serverError, "Unexpected server response") ∧
    excName .serverError ≠ "ProtocolError" := by
  decide

/-- C3 (amended): for every KT response, when the first byte equals the
request's magic byte the engine proceeds to parse the rest of the response;
when the first byte is `0xBF` it raises `ProtocolError` ("Internal server
error processing request.") without parsing further; for any other first byte
it raises `ServerError` ("Unexpected server response"). -/
theorem C3_check_error_dispatch (magic b : Nat) (rest : List Nat) :
    (b = magic → ktCheckError magic (b :: rest) = .ok rest) ∧
    (b ≠ magic → b = KT_ERROR →
      ktCheckError magic (b :: rest) =
        .error (.protocolError, "Internal server error processing request.")) ∧
    (b ≠ magic → b ≠ KT_ERROR →
      ktCheckError magic (b :: rest) =
        .error (.serverError, "Unexpected server response")) := by
  refine ⟨fun h => ?_, fun h1 h2 => ?_, fun h1 h2 => ?_⟩
  · simp [ktCheckError, h]
  · subst h2; simp [ktCheckError, h1]
  · simp [ktCheckError, h1, h2]

/-- C3 (witness): the dispatch at magic `0xB8` on concrete first bytes. -/
theorem C3_check_error_dispatch_witness :
    ktCheckError 0xb8 (0xb8 :: [9]) = .ok [9] ∧
    ktCheckError 0xb8 (0xbf :: [9]) =
      .error (.protocolError, "Internal server error processing request.") ∧
    ktCheckError 0xb8 (0x01 :: [9]) =
      .error (.serverError, "Unexpected server response") :=
  ⟨(C3_check_error_dispatch 0xb8 0xb8 [9]).1 rfl,
   (C3_check_error_dispatch 0xb8 0xbf [9]).2.1 (by decide) rfl,
   (C3_check_error_dispatch 0xb8 0x01 [9]).2.2 (by decide) (by decide)⟩

lemma sockClose_isClosed (st : SockState) : (sockClose st).isClosed = true := by
  unfold sockClose
  split
  · next h => exact h
  · rfl

lemma readFromSocketLoop_error_cases (len : Int) (evs : List RecvEv) :
    ∀ (st : SockState) (marker : Int) (msg : String) (stf : SockState),
      readFromSocketLoop len evs st marker = .error (msg, stf) →
      (msg = "server went away" → stf.isClosed = true) ∧
      (msg = "timed out reading from socket" ∨
        msg = "error while reading from socket" →
        stf.isClosed = st.isClosed) := by
  induction evs with
  | nil =>
    intro st marker msg stf h
    unfold readFromSocketLoop at h
    simp only [Except.error.injEq, Prod.mk.injEq] at h
    obtain ⟨hmsg, hst⟩ := h
    subst hmsg hst
    refine ⟨fun hm => absurd hm (by decide), fun hm => ?_⟩
    rcases hm with hm | hm <;> exact absurd hm (by decide)
  | cons ev evs ih =>
    intro st marker msg stf h
    unfold readFromSocketLoop at h
    match ev with
    | .chunk l =>
      simp only at h
      by_cases hl : l = 0
      · rw [if_pos hl] at h
        simp only [Except.error.injEq, Prod.mk.injEq] at h
        obtain ⟨hmsg, hst⟩ := h
        subst hmsg hst
        refine ⟨fun _ => sockClose_isClosed st, fun hor => ?_⟩
        rcases hor with hm | hm <;> exact absurd hm (by decide)
      · rw [if_neg hl] at h
        by_cases hc : 0 < len ∧ marker + (l : Int) < len
        · rw [if_pos hc] at h
          exact ⟨(ih _ _ _ _ h).1, (ih _ _ _ _ h).2⟩
        · rw [if_neg hc] at h
          exact absurd h (by simp)
    | .timeout =>
      simp only at h
      simp only [Except.error.injEq, Prod.mk.injEq] at h
      obtain ⟨hmsg, hst⟩ := h
      subst hmsg hst
      exact ⟨fun hm => absurd hm (by decide), fun _ => rfl⟩
    | .sockerr =>
      simp only at h
      simp only [Except.error.injEq, Prod.mk.injEq] at h
      obtain ⟨hmsg, hst⟩ := h
      subst hmsg hst
      exact ⟨fun hm => absurd hm (by decide), fun _ => rfl⟩

/-- C2 (counterexample): a socket timeout during `_read_from_socket` raises
`ServerConnectionError('timed out reading from socket')` but leaves
`is_closed` false: starting from an open socket, the failed exact-length read
does not close it, so the claimed invariant fails. -/
theorem C2_recv_timeout_leaves_socket_open :
    readFromSocket 5 [.timeout] ⟨false, 0, 0⟩ =
      .error ("timed out reading from socket", ⟨false, 0, 0⟩) ∧
    (SockState.mk false 0 0).isClosed = false := by
  decide

/-- C2 (amended): after a zero-byte read in `_read_from_socket` the socket is
closed (`is_closed` true) before the failure propagates, and any `send`
failure closes the socket; but a socket timeout or any other socket error
during a receive raises `ServerConnectionError` with `is_closed` unchanged,
so the socket is not marked closed. -/
theorem C2_socket_failure_close (len : Int) (evs : List RecvEv)
    (st : SockState) (msg : String) (stf : SockState) (ev : SendEv)
    (msg2 : String) (stf2 : SockState)
    (hr : readFromSocket len evs st = .error (msg, stf))
    (hs : sockSend ev st = .error (msg2, stf2)) :
    (msg = "server went away" → stf.isClosed = true) ∧
    (msg = "timed out reading from socket" ∨
      msg = "error while reading from socket" →
      stf.isClosed = st.isClosed) ∧
    stf2.isClosed = true := by
  refine ⟨(readFromSocketLoop_error_cases len evs st 0 msg stf hr).1,
    (readFromSocketLoop_error_cases len evs st 0 msg stf hr).2, ?_⟩
  match ev with
  | .sent => exact absurd hs (by simp [sockSend])
  | .ioerr =>
    unfold sockSend at hs
    injection hs with h'
    obtain ⟨hmsg, hst⟩ := Prod.mk.injEq .. ▸ h'
    subst hst
    exact sockClose_isClosed st

/-- C2 (witness): the amended statement at a concrete failing run — a
zero-byte read on an open socket, and an `IOError` during `send`. -/
theorem C2_socket_failure_close_witness :
    ((("server went away" : String) = "server went away" →
        (SockState.mk true 0 0).isClosed = true) ∧
      (("server went away" : String) = "timed out reading from socket" ∨
        ("server went away" : String) = "error while reading from socket" →
        (SockState.mk true 0 0).isClosed = (SockState.mk false 2 2).isClosed) ∧
      (SockState.mk true 0 0).isClosed = true) :=
  C2_socket_failure_close 5 [.chunk 2, .chunk 0] ⟨false, 0, 0⟩
    "server went away" ⟨true, 0, 0⟩ .ioerr "server went away" ⟨true, 0, 0⟩
    (by decide) (by decide)

/-- C6 (counterexample): at `n = 2^56` the varint writer does not fail at
all — `_writevarnum` simply writes no bytes and returns a byte count of 0
(the source contains no raise; no `BadArgument`-style error is produced). -/
theorem C6_writevarnum_at_large_input :
    writevarnum (2 ^ 56) = [] ∧ (writevarnum (2 ^ 56)).length = 0 := by
  constructor <;> decide

/-- C6 (amended): for every `n ≥ 2^56` the varint writer emits no encoding
and returns a byte count of 0; it raises no error (callers ignore the 0). -/
theorem C6_writevarnum_large (n : Nat) (h : 2 ^ 56 ≤ n) :
    writevarnum n = [] ∧ (writevarnum n).length = 0 := by
  have hw : writevarnum n = [] := by
    unfold writevarnum
    repeat rw [if_neg (by simp only [Nat.one_shiftLeft]; omega)]
  exact ⟨hw, by rw [hw]; rfl⟩

/-- C6 (witness): the amended statement at `n = 2^56 + 5`. -/
theorem C6_writevarnum_large_witness :
    writevarnum (2 ^ 56 + 5) = [] ∧ (writevarnum (2 ^ 56 + 5)).length = 0 :=
  C6_writevarnum_large (2 ^ 56 + 5) (by norm_num)

lemma readvarnumAux_all_high (bs : List Nat) :
    ∀ (num consumed : Nat), (∀ b ∈ bs, 0x80 ≤ b) →
      readvarnumAux bs num consumed =
        (bs.foldl (fun a c => ((a <<< 7) + (c &&& 0x7f)) % 2 ^ 64) num,
         consumed + bs.length) := by
  induction bs with
  | nil => intro num consumed _; rfl
  | cons c rest ih =>
    intro num consumed h
    have hc : 0x80 ≤ c := h c (by simp)
    simp only [readvarnumAux, if_neg (by omega : ¬ c < 0x80), List.foldl_cons,
      List.length_cons]
    rw [ih _ _ fun b hb => h b (by simp [hb])]
    congr 1
    omega

/-- C7 (counterexample): on inputs holding only continuation bytes (high bit
set) the varint reader does not fail: it returns the accumulated value and
consumes the whole buffer — `b'\x80'` decodes to `(0, 1)` and `b'\x81\x82'`
to `(130, 2)`; no `Corrupt`-style error is raised by `_readvarnum`. -/
theorem C7_readvarnum_unterminated_no_failure :
    readvarnum [0x80] = (0, 1) ∧ readvarnum [0x81, 0x82] = (130, 2) := by
  decide

/-- C7 (amended): for every input byte string in which no byte with a clear
high bit occurs, `_readvarnum` returns the shift-accumulated 7-bit value (in
`uint64_t` arithmetic, so each step wraps modulo `2^64`) together with the
full input length: it consumes everything and does not fail; the corrupt
`ValueError` is only raised later by the deserializers'
`buflen < step + num` length check. -/
theorem C7_readvarnum_unterminated (bs : List Nat)
    (h : ∀ b ∈ bs, 0x80 ≤ b) :
    readvarnum bs =
      (bs.foldl (fun a c => ((a <<< 7) + (c &&& 0x7f)) % 2 ^ 64) 0,
       bs.length) := by
  unfold readvarnum
  rw [readvarnumAux_all_high bs 0 0 h]
  congr 1
  omega

/-- C7 (witness): the amended statement at the concrete input `[0x80, 0xff]`. -/
theorem C7_readvarnum_unterminated_witness :
    readvarnum [0x80, 0xff] =
      ([0x80, 0xff].foldl (fun a c => ((a <<< 7) + (c &&& 0x7f)) % 2 ^ 64) 0,
       ([0x80, 0xff] : List Nat).length) :=
  C7_readvarnum_unterminated [0x80, 0xff] (by decide)

lemma pyOrInt_falsy (xt : Option Int) (hxt : xt = none ∨ xt = some 0) :
    pyOrInt xt EXPIRE = EXPIRE := by
  rcases hxt with h | h <;> subst h <;> simp [pyOrInt]

lemma i64be_EXPIRE :
    i64be EXPIRE = [0x7f, 0xff, 0xff, 0xff, 0xff, 0xff, 0xff, 0xff] := by
  decide

/-- C9: for every KT `set_bulk` (and single-key `set`, which routes through
the same record writer) whose expiration argument is absent (`None`) or zero,
the assembled request carries the sentinel `0x7FFFFFFFFFFFFFFF` as the signed
64-bit expiration of every record: the request equals the one built with
`xt = EXPIRE`, and the 8 bytes at offset 10 of every record header are the
big-endian sentinel. -/
theorem C9_set_bulk_expire_sentinel (data : List (List Nat × List Nat))
    (db : Nat) (xt : Option Int) (no_reply : Bool)
    (hxt : xt = none ∨ xt = some 0) :
    setBulkRequest data db xt no_reply =
      KT_SET_BULK :: (u32be (if no_reply then KT_NOREPLY else 0) ++
        (u32be data.length ++
          (data.map fun kv =>
            struct_dbkvxt db kv.1.length kv.2.length EXPIRE ++ kv.1 ++
              kv.2).flatten)) ∧
    ∀ kv ∈ data,
      ((struct_dbkvxt db kv.1.length kv.2.length (pyOrInt xt EXPIRE)).drop
          10).take 8 =
        [0x7f, 0xff, 0xff, 0xff, 0xff, 0xff, 0xff, 0xff] := by
  constructor
  · simp [setBulkRequest, write_key_value_list_with_db_expire,
      pyOrInt_falsy xt hxt]
  · intro kv _
    rw [pyOrInt_falsy xt hxt]
    simp [struct_dbkvxt, u16be, u32be, i64be_EXPIRE]

/-- C9 (witness): a one-record `set_bulk` with `expire_time=None` and a
one-record request with `expire_time=0`. -/
theorem C9_set_bulk_expire_sentinel_witness :
    (setBulkRequest [([1], [2])] 0 none false =
      KT_SET_BULK :: (u32be 0 ++
        (u32be ([([1], [2])] : List (List Nat × List Nat)).length ++
          (([([1], [2])] : List (List Nat × List Nat)).map fun kv =>
            struct_dbkvxt 0 kv.1.length kv.2.length EXPIRE ++ kv.1 ++
              kv.2).flatten)) ∧
      ∀ kv ∈ ([([1], [2])] : List (List Nat × List Nat)),
        ((struct_dbkvxt 0 kv.1.length kv.2.length (pyOrInt none EXPIRE)).drop
            10).take 8 =
          [0x7f, 0xff, 0xff, 0xff, 0xff, 0xff, 0xff, 0xff]) :=
  C9_set_bulk_expire_sentinel [([1], [2])] 0 none false (Or.inl rfl)

lemma u32be_combine (x : Nat) (h : x < 2 ^ 32) :
    (x / 2 ^ 24 % 256) <<< 24 + (x / 2 ^ 16 % 256) <<< 16 +
      (x / 2 ^ 8 % 256) <<< 8 + x % 256 = x := by
  simp only [Nat.shiftLeft_eq]
  omega

/-- C10: for every TT `get` response, a status byte `0x01` (miss) yields
`None` with no further bytes consumed; a status byte `0x00` is followed by
reading the `u32`-length-prefixed value, which is returned; any other status
byte raises `ServerError` from `check_error` before any value is read. -/
lemma exceptBindOk {ε α β : Type} (a : α) (f : α → Except ε β) :
    (Except.ok a >>= f) = f a := rfl

lemma exceptBindErr {ε α β : Type} (e : ε) (f : α → Except ε β) :
    ((Except.error e : Except ε α) >>= f) = .error e := rfl

theorem C10_tt_get_status_dispatch (rest v cont : List Nat) (b : Nat)
    (hv : v.length < 2 ^ 31) (hb0 : b ≠ 0x00) (hb1 : b ≠ 0x01) :
    ttGet (0x01 :: rest) = .ok (none, rest) ∧
    ttGet (0x00 :: (u32be v.length ++ (v ++ cont))) = .ok (some v, cont) ∧
    ttGet (b :: rest) = .error "ServerError: unexpected server response" := by
  refine ⟨rfl, ?_, by simp [ttGet, ttCheckError, hb0, hb1, exceptBindErr]⟩
  have hread : ttReadInt (u32be v.length ++ (v ++ cont)) =
      .ok ((v.length : Int), v ++ cont) := by
    unfold ttReadInt
    rw [if_pos (by simp [u32be])]
    simp only [u32be, List.cons_append, List.nil_append, List.getD_cons_zero,
      List.getD_cons_succ, List.drop_succ_cons, List.drop_zero]
    rw [u32be_combine v.length (by omega)]
    unfold toInt32
    rw [if_pos (by omega), Nat.mod_eq_of_lt (by omega)]
  have hbytes : ttReadBytes (u32be v.length ++ (v ++ cont)) =
      .ok (v, cont) := by
    unfold ttReadBytes
    rw [hread, exceptBindOk]
    show (if 0 < ((v.length : Nat) : Int) then
        recvN ((v.length : Nat) : Int).toNat (v ++ cont)
      else .ok ([], v ++ cont)) = .ok (v, cont)
    by_cases hz : v = []
    · subst hz
      rfl
    · have hvpos : 0 < v.length := List.length_pos.mpr hz
      rw [if_pos (by exact_mod_cast hvpos)]
      unfold recvN
      rw [if_pos (by rw [Int.toNat_natCast]; simp)]
      rw [Int.toNat_natCast, List.take_left v cont, List.drop_left v cont]
  have hstep : ttGet (0x00 :: (u32be v.length ++ (v ++ cont))) =
      (ttReadBytes (u32be v.length ++ (v ++ cont)) >>= fun r =>
        Except.ok (some r.1, r.2)) := rfl
  rw [hstep, hbytes, exceptBindOk]

/-- C10 (witness): the dispatch at a concrete miss, hit, and bad status. -/
theorem C10_tt_get_status_dispatch_witness :
    ttGet (0x01 :: [7]) = .ok (none, [7]) ∧
    ttGet (0x00 :: (u32be ([5] : List Nat).length ++ ([5] ++ [9]))) =
      .ok (some [5], [9]) ∧
    ttGet (0x42 :: [7]) = .error "ServerError: unexpected server response" :=
  C10_tt_get_status_dispatch [7] [5] [9] 0x42 (by norm_num) (by decide)
    (by decide)

lemma lorge : ∀ x < 128, ¬ x ||| 128 < 128 := by decide

lemma lorand : ∀ x < 128, (x ||| 128) &&& 127 = x := by decide

lemma and127lt (x : Nat) : x &&& 127 < 128 :=
  lt_of_le_of_lt Nat.and_le_right (by norm_num)

lemma and127mod (x : Nat) : x &&& 127 = x % 128 := by
  have hx := Nat.and_pow_two_sub_one_eq_mod x 7
  norm_num at hx
  exact hx

lemma raux_cont (c : Nat) (hc : ¬ c < 128) (rest : List Nat) (num k : Nat) :
    readvarnumAux (c :: rest) num k =
      readvarnumAux rest ((num * 128 + (c &&& 127)) % 2 ^ 64) (k + 1) := by
  show (if c < 0x80 then (((num <<< 7) + (c &&& 0x7f)) % 2 ^ 64, k + 1)
    else readvarnumAux rest (((num <<< 7) + (c &&& 0x7f)) % 2 ^ 64) (k + 1)) = _
  rw [if_neg hc, Nat.shiftLeft_eq]

lemma raux_last (c : Nat) (hc : c < 128) (rest : List Nat) (num k : Nat) :
    readvarnumAux (c :: rest) num k =
      ((num * 128 + (c &&& 127)) % 2 ^ 64, k + 1) := by
  show (if c < 0x80 then (((num <<< 7) + (c &&& 0x7f)) % 2 ^ 64, k + 1)
    else readvarnumAux rest (((num <<< 7) + (c &&& 0x7f)) % 2 ^ 64) (k + 1)) = _
  rw [if_pos hc, Nat.shiftLeft_eq]

lemma varnumMinimal (n lo : Nat) (hlo : 2 ^ (7 * lo) ≤ n) :
    ∀ k, 1 ≤ k → n < 2 ^ (7 * k) → lo + 1 ≤ k := by
  intro k _ hk2
  by_contra hcon
  push_neg at hcon
  have h7 : 7 * k ≤ 7 * lo := by omega
  have hpow := Nat.pow_le_pow_right (by norm_num : 0 < 2) h7
  omega

set_option maxHeartbeats 2000000 in
/-- C1: for every `n < 2^56`, reading the bytes written by `_writevarnum`
returns `(n, bytes-written)`, and the byte count is the least `k ∈ [1, 8]`
with `n < 2^(7k)`. -/
theorem C1_varint_roundtrip (n : Nat) (h : n < 2 ^ 56) :
    readvarnum (writevarnum n) = (n, (writevarnum n).length) ∧
    1 ≤ (writevarnum n).length ∧ (writevarnum n).length ≤ 8 ∧
    n < 2 ^ (7 * (writevarnum n).length) ∧
    ∀ k, 1 ≤ k → n < 2 ^ (7 * k) → (writevarnum n).length ≤ k := by
  unfold writevarnum
  split_ifs with h1 h2 h3 h4 h5 h6 h7 h8
  · -- 1 byte: n < 2^7
    refine ⟨?_, by norm_num, by norm_num, by norm_num; omega,
      fun k hk _ => by simpa using hk⟩
    unfold readvarnum
    rw [raux_last _ (by omega)]
    simp only [Prod.mk.injEq]
    refine ⟨?_, rfl⟩
    simp only [and127mod]
    omega
  · -- 2 bytes: 2^7 ≤ n < 2^14
    have e1 : n >>> 7 < 128 := by rw [Nat.shiftRight_eq_div_pow]; omega
    refine ⟨?_, by norm_num, by norm_num, by norm_num; omega, ?_⟩
    · unfold readvarnum
      rw [raux_cont _ (lorge _ e1), raux_last _ (and127lt n)]
      rw [lorand _ e1]
      simp only [Prod.mk.injEq]
      refine ⟨?_, rfl⟩
      simp only [and127mod, Nat.shiftRight_eq_div_pow]
      omega
    · intro k hk1 hk2
      have hlo : 2 ^ (7 * 1) ≤ n := by omega
      simpa using varnumMinimal n 1 hlo k hk1 hk2
  · -- 3 bytes: 2^14 ≤ n < 2^21
    have e1 : n >>> 14 < 128 := by rw [Nat.shiftRight_eq_div_pow]; omega
    refine ⟨?_, by norm_num, by norm_num, by norm_num; omega, ?_⟩
    · unfold readvarnum
      rw [raux_cont _ (lorge _ e1), raux_cont _ (lorge _ (and127lt _)),
        raux_last _ (and127lt n)]
      rw [lorand _ e1, lorand _ (and127lt _)]
      simp only [Prod.mk.injEq]
      refine ⟨?_, rfl⟩
      simp only [and127mod, Nat.shiftRight_eq_div_pow]
      omega
    · intro k hk1 hk2
      have hlo : 2 ^ (7 * 2) ≤ n := by omega
      simpa using varnumMinimal n 2 hlo k hk1 hk2
  · -- 4 bytes: 2^21 ≤ n < 2^28
    have e1 : n >>> 21 < 128 := by rw [Nat.shiftRight_eq_div_pow]; omega
    refine ⟨?_, by norm_num, by norm_num, by norm_num; omega, ?_⟩
    · unfold readvarnum
      rw [raux_cont _ (lorge _ e1), raux_cont _ (lorge _ (and127lt _)),
        raux_cont _ (lorge _ (and127lt _)), raux_last _ (and127lt n)]
      rw [lorand _ e1, lorand _ (and127lt _), lorand _ (and127lt _)]
      simp only [Prod.mk.injEq]
      refine ⟨?_, rfl⟩
      simp only [and127mod, Nat.shiftRight_eq_div_pow]
      omega
    · intro k hk1 hk2
      have hlo : 2 ^ (7 * 3) ≤ n := by omega
      simpa using varnumMinimal n 3 hlo k hk1 hk2
  · -- 5 bytes: 2^28 ≤ n < 2^35
    have e1 : n >>> 28 < 128 := by rw [Nat.shiftRight_eq_div_pow]; omega
    refine ⟨?_, by norm_num, by norm_num, by norm_num; omega, ?_⟩
    · unfold readvarnum
      rw [raux_cont _ (lorge _ e1), raux_cont _ (lorge _ (and127lt _)),
        raux_cont _ (lorge _ (and127lt _)), raux_cont _ (lorge _ (and127lt _)),
        raux_last _ (and127lt n)]
      rw [lorand _ e1, lorand _ (and127lt _), lorand _ (and127lt _),
        lorand _ (and127lt _)]
      simp only [Prod.mk.injEq]
      refine ⟨?_, rfl⟩
      simp only [and127mod, Nat.shiftRight_eq_div_pow]
      omega
    · intro k hk1 hk2
      have hlo : 2 ^ (7 * 4) ≤ n := by omega
      simpa using varnumMinimal n 4 hlo k hk1 hk2
  · -- 6 bytes: 2^35 ≤ n < 2^42
    have e1 : n >>> 35 < 128 := by rw [Nat.shiftRight_eq_div_pow]; omega
    refine ⟨?_, by norm_num, by norm_num, by norm_num; omega, ?_⟩
    · unfold readvarnum
      rw [raux_cont _ (lorge _ e1), raux_cont _ (lorge _ (and127lt _)),
        raux_cont _ (lorge _ (and127lt _)), raux_cont _ (lorge _ (and127lt _)),
        raux_cont _ (lorge _ (and127lt _)), raux_last _ (and127lt n)]
      rw [lorand _ e1, lorand _ (and127lt _), lorand _ (and127lt _),
        lorand _ (and127lt _), lorand _ (and127lt _)]
      simp only [Prod.mk.injEq]
      refine ⟨?_, rfl⟩
      simp only [and127mod, Nat.shiftRight_eq_div_pow]
      omega
    · intro k hk1 hk2
      have hlo : 2 ^ (7 * 5) ≤ n := by omega
      simpa using varnumMinimal n 5 hlo k hk1 hk2
  · -- 7 bytes: 2^42 ≤ n < 2^49
    have e1 : n >>> 42 < 128 := by rw [Nat.shiftRight_eq_div_pow]; omega
    refine ⟨?_, by norm_num, by norm_num, by norm_num; omega, ?_⟩
    · unfold readvarnum
      rw [raux_cont _ (lorge _ e1), raux_cont _ (lorge _ (and127lt _)),
        raux_cont _ (lorge _ (and127lt _)), raux_cont _ (lorge _ (and127lt _)),
        raux_cont _ (lorge _ (and127lt _)), raux_cont _ (lorge _ (and127lt _)),
        raux_last _ (and127lt n)]
      rw [lorand _ e1, lorand _ (and127lt _), lorand _ (and127lt _),
        lorand _ (and127lt _), lorand _ (and127lt _), lorand _ (and127lt _)]
      simp only [Prod.mk.injEq]
      refine ⟨?_, rfl⟩
      simp only [and127mod, Nat.shiftRight_eq_div_pow]
      omega
    · intro k hk1 hk2
      have hlo : 2 ^ (7 * 6) ≤ n := by omega
      simpa using varnumMinimal n 6 hlo k hk1 hk2
  · -- 8 bytes: 2^49 ≤ n < 2^56
    have e1 : n >>> 49 < 128 := by rw [Nat.shiftRight_eq_div_pow]; omega
    refine ⟨?_, by norm_num, by norm_num, by norm_num; omega, ?_⟩
    · unfold readvarnum
      rw [raux_cont _ (lorge _ e1), raux_cont _ (lorge _ (and127lt _)),
        raux_cont _ (lorge _ (and127lt _)), raux_cont _ (lorge _ (and127lt _)),
        raux_cont _ (lorge _ (and127lt _)), raux_cont _ (lorge _ (and127lt _)),
        raux_cont _ (lorge _ (and127lt _)), raux_last _ (and127lt n)]
      rw [lorand _ e1, lorand _ (and127lt _), lorand _ (and127lt _),
        lorand _ (and127lt _), lorand _ (and127lt _), lorand _ (and127lt _),
        lorand _ (and127lt _)]
      simp only [Prod.mk.injEq]
      refine ⟨?_, rfl⟩
      simp only [and127mod, Nat.shiftRight_eq_div_pow]
      omega
    · intro k hk1 hk2
      have hlo : 2 ^ (7 * 7) ≤ n := by omega
      simpa using varnumMinimal n 7 hlo k hk1 hk2
  · -- n ≥ 2^56: excluded by the hypothesis
    exfalso
    omega

/-- C1 (witness): the round trip and minimal length at `n = 300`. -/
theorem C1_varint_roundtrip_witness :
    readvarnum (writevarnum 300) = (300, (writevarnum 300).length) ∧
    1 ≤ (writevarnum 300).length ∧ (writevarnum 300).length ≤ 8 ∧
    300 < 2 ^ (7 * (writevarnum 300).length) ∧
    ∀ k, 1 ≤ k → 300 < 2 ^ (7 * k) → (writevarnum 300).length ≤ k :=
  C1_varint_roundtrip 300 (by norm_num)

end KTBinary
